import Mathlib

/-!
Verification of the ray-tracer repository (fragment shader + scene compiler).

The shader arithmetic (GLSL `float`) is modelled exactly over `ℚ`.  GLSL
builtins with no closed rational form (`sqrt`, `sin`, `cos`, `pow`) and the
externally generated `rayIntersectScene` routine are passed to each embedded
function as explicit function parameters; every theorem quantifies over them
or pins them by hypotheses at the concrete square roots the input needs.
-/

namespace RT

attribute [local semireducible] Rat.add Rat.mul Rat.sub Rat.inv Rat.ofScientific

/-- 3-vector of rationals, modelling GLSL `vec3`. -/
structure Vec3 where
  x : ℚ
  y : ℚ
  z : ℚ
deriving DecidableEq, Repr

/-- 4-vector of rationals, modelling GLSL `vec4`. -/
structure Vec4 where
  x : ℚ
  y : ℚ
  z : ℚ
  w : ℚ
deriving DecidableEq, Repr

instance : Add Vec3 := ⟨fun a b => ⟨a.x + b.x, a.y + b.y, a.z + b.z⟩⟩

instance : Sub Vec3 := ⟨fun a b => ⟨a.x - b.x, a.y - b.y, a.z - b.z⟩⟩

instance : Neg Vec3 := ⟨fun a => ⟨-a.x, -a.y, -a.z⟩⟩

instance : SMul ℚ Vec3 := ⟨fun s a => ⟨s * a.x, s * a.y, s * a.z⟩⟩

@[simp] theorem Vec3.add_def (a b : Vec3) : a + b = ⟨a.x + b.x, a.y + b.y, a.z + b.z⟩ := rfl

@[simp] theorem Vec3.sub_def (a b : Vec3) : a - b = ⟨a.x - b.x, a.y - b.y, a.z - b.z⟩ := rfl

@[simp] theorem Vec3.neg_def (a : Vec3) : -a = ⟨-a.x, -a.y, -a.z⟩ := rfl

@[simp] theorem Vec3.smul_def (s : ℚ) (a : Vec3) : s • a = ⟨s * a.x, s * a.y, s * a.z⟩ := rfl

/-- GLSL componentwise `vec3 * vec3`. -/
def vmul (a b : Vec3) : Vec3 := ⟨a.x * b.x, a.y * b.y, a.z * b.z⟩

/-- GLSL `dot` for `vec3`. -/
def dot (a b : Vec3) : ℚ := a.x * b.x + a.y * b.y + a.z * b.z

/-- GLSL `cross`. -/
def cross (a b : Vec3) : Vec3 :=
  ⟨a.y * b.z - a.z * b.y, a.z * b.x - a.x * b.z, a.x * b.y - a.y * b.x⟩

/-- GLSL `length(v) = sqrt(dot(v,v))`, with the square root supplied as the
function parameter `sqrtF` (GLSL `sqrt` has no rational closed form). -/
def lengthV (sqrtF : ℚ → ℚ) (v : Vec3) : ℚ := sqrtF (dot v v)

/-- GLSL `normalize(v) = v / length(v)`. -/
def normalize (sqrtF : ℚ → ℚ) (v : Vec3) : Vec3 := (1 / lengthV sqrtF v) • v

/-- GLSL `reflect(I, N) = I - 2 * dot(N, I) * N`. -/
def reflectV (i n : Vec3) : Vec3 := i - (2 * dot n i) • n

/-- Column-major 4x4 matrix, modelling GLSL `mat4` / glMatrix storage:
field `aI` is array slot `I`, i.e. column `I / 4`, row `I % 4`. -/
structure Mat4 where
  a0 : ℚ
  a1 : ℚ
  a2 : ℚ
  a3 : ℚ
  a4 : ℚ
  a5 : ℚ
  a6 : ℚ
  a7 : ℚ
  a8 : ℚ
  a9 : ℚ
  a10 : ℚ
  a11 : ℚ
  a12 : ℚ
  a13 : ℚ
  a14 : ℚ
  a15 : ℚ
deriving DecidableEq, Repr

/-- Column-major 3x3 matrix, modelling GLSL `mat3`: field `nI` is array
slot `I`, i.e. column `I / 3`, row `I % 3`. -/
structure Mat3 where
  n0 : ℚ
  n1 : ℚ
  n2 : ℚ
  n3 : ℚ
  n4 : ℚ
  n5 : ℚ
  n6 : ℚ
  n7 : ℚ
  n8 : ℚ
deriving DecidableEq, Repr

def mat4Identity : Mat4 := ⟨1,0,0,0, 0,1,0,0, 0,0,1,0, 0,0,0,1⟩

def mat3Identity : Mat3 := ⟨1,0,0, 0,1,0, 0,0,1⟩

/-- GLSL `mat4 * vec4` (column vectors). -/
def mat4MulVec4 (m : Mat4) (v : Vec4) : Vec4 :=
  ⟨m.a0 * v.x + m.a4 * v.y + m.a8 * v.z + m.a12 * v.w,
   m.a1 * v.x + m.a5 * v.y + m.a9 * v.z + m.a13 * v.w,
   m.a2 * v.x + m.a6 * v.y + m.a10 * v.z + m.a14 * v.w,
   m.a3 * v.x + m.a7 * v.y + m.a11 * v.z + m.a15 * v.w⟩

/-- GLSL `mat3 * vec3`. -/
def mat3MulVec3 (m : Mat3) (v : Vec3) : Vec3 :=
  ⟨m.n0 * v.x + m.n3 * v.y + m.n6 * v.z,
   m.n1 * v.x + m.n4 * v.y + m.n7 * v.z,
   m.n2 * v.x + m.n5 * v.y + m.n8 * v.z⟩

/-- `vec4(v, w)`. -/
def toVec4 (v : Vec3) (w : ℚ) : Vec4 := ⟨v.x, v.y, v.z, w⟩

/-- `vec3(temp[0], temp[1], temp[2])`. -/
def xyzOf (v : Vec4) : Vec3 := ⟨v.x, v.y, v.z⟩

/-- `#define INF 1.0e+12` — the "no hit" sentinel. -/
def INF : ℚ := 1000000000000

/-- `#define EPS 1.0e-3` — reflect/shadow ray offset. -/
def EPS : ℚ := 1 / 1000

/-- `#define SOFT_NUMBER 10` — number of jittered soft-shadow samples. -/
def SOFT_NUMBER : ℕ := 10

/-- GLSL `struct Material`. -/
structure Material where
  kd : Vec3
  ks : Vec3
  ka : Vec3
  kt : Vec3
  shininess : ℚ
  refraction : ℚ
  special : ℤ
deriving DecidableEq, Repr

/-- GLSL `struct Light`. -/
structure Light where
  pos : Vec3
  color : Vec3
  atten : Vec3
  towards : Vec3
  angle : ℚ
deriving DecidableEq, Repr

/-- GLSL `struct Ray`. -/
structure Ray where
  p0 : Vec3
  v : Vec3
deriving DecidableEq, Repr

/-- GLSL `struct Intersection`. -/
structure Intersection where
  p : Vec3
  n : Vec3
  mIdx : ℤ
  sCoeff : ℚ
deriving DecidableEq, Repr

/-- Model value for an uninitialised GLSL `Intersection` local / out variable. -/
def blankIntersection : Intersection := ⟨⟨0,0,0⟩, ⟨0,0,0⟩, 0, 0⟩

/-- Model value for an uninitialised GLSL `Material` local variable. -/
def blankMaterial : Material := ⟨⟨0,0,0⟩, ⟨0,0,0⟩, ⟨0,0,0⟩, ⟨0,0,0⟩, 0, 0, 0⟩

/-- `rayIntersectPlane` from the shader.  The GLSL `out Intersection`
parameter is modelled by taking its incoming value `i0` and returning the
pair (returned `t`, final value of the out parameter). -/
def rayIntersectPlane (ray : Ray) (n p : Vec3) (mIdx : ℤ) (i0 : Intersection) :
    ℚ × Intersection :=
  let denom := dot ray.v n
  if |denom| > 0 then
    let num := dot (p - ray.p0) n
    let t := num / denom
    if t > 0 then
      (t, { i0 with p := ray.p0 + t • ray.v, n := n, mIdx := mIdx })
    else (INF, i0)
  else (INF, i0)

/-- `getTriangleArea` from the shader. -/
def getTriangleArea (sqrtF : ℚ → ℚ) (a b c : Vec3) : ℚ :=
  lengthV sqrtF (cross (b - a) (c - a)) / 2

/-- `rayIntersectTriangle` from the shader.  Note the source reassigns the
local `ray` to the `MInv`-transformed ray and then writes
`intersect.p = ray.p0 + ray.v*t` from that local ray (the declared
`oldP0`/`oldV` are never used again), so the written point is in the
instance's local frame. -/
def rayIntersectTriangle (sqrtF : ℚ → ℚ) (ray : Ray) (a b c : Vec3) (mIdx : ℤ)
    (MInv : Mat4) (N : Mat3) (i0 : Intersection) : ℚ × Intersection :=
  let i1 := { i0 with mIdx := mIdx }
  let newP0 := xyzOf (mat4MulVec4 MInv (toVec4 ray.p0 1))
  let newV := xyzOf (mat4MulVec4 MInv (toVec4 ray.v 0))
  let ray : Ray := ⟨newP0, newV⟩
  let ab := b - a
  let ac := c - a
  let n := normalize sqrtF (mat3MulVec3 N (cross ab ac))
  let t := dot (a - ray.p0) n / dot ray.v n
  if t ≥ 0 then
    let i2 := { i1 with p := ray.p0 + t • ray.v, n := n }
    let ABCarea := getTriangleArea sqrtF a b c
    let alpha := getTriangleArea sqrtF c i2.p b / ABCarea
    let beta := getTriangleArea sqrtF a i2.p c / ABCarea
    let gamma := getTriangleArea sqrtF a b i2.p / ABCarea
    if alpha + beta + gamma = 1 ∨ alpha + beta + gamma < 1.01 then
      (t, i2)
    else (INF, i2)
  else (INF, i1)

/-- `rayIntersectSphere` from the shader. -/
def rayIntersectSphere (sqrtF : ℚ → ℚ) (ray : Ray) (c : Vec3) (r : ℚ) (mIdx : ℤ)
    (MInv : Mat4) (N : Mat3) (i0 : Intersection) : ℚ × Intersection :=
  let i1 := { i0 with mIdx := mIdx }
  let oldP0 := ray.p0
  let oldV := ray.v
  let newP0 := xyzOf (mat4MulVec4 MInv (toVec4 ray.p0 1))
  let newV := xyzOf (mat4MulVec4 MInv (toVec4 ray.v 0))
  let cp := newP0 - c
  let A := dot newV newV
  let B := 2 * dot cp newV
  let C := dot cp cp - r * r
  let disc := B * B - 4 * A * C
  let t1 := (-B - sqrtF disc) / (2 * A)
  let t2 := (-B + sqrtF disc) / (2 * A)
  if disc ≥ 0 then
    if t1 > 0 then
      (t1, { i1 with p := oldP0 + t1 • oldV,
                     n := normalize sqrtF (mat3MulVec3 N (newP0 + t1 • newV - c)),
                     sCoeff := 1 })
    else if t2 > 0 then
      (t2, { i1 with p := oldP0 + t2 • oldV,
                     n := normalize sqrtF (mat3MulVec3 N (newP0 + t2 • newV - c)),
                     sCoeff := 1 })
    else (INF, i1)
  else (INF, i1)

/-- One adoption block of `rayIntersectBox`: given the outcome `(tk, jk)` of a
side-plane test, the in-range test `inR` on the local hit point, and the
current `(t, intersect)`, perform `if (tk < t && tk >= 0) { if inR {...} }`. -/
def boxSide (sqrtF : ℚ → ℚ) (oldP0 oldV : Vec3) (N : Mat3) (tk : ℚ)
    (jk : Intersection) (inR : Vec3 → Prop) [DecidablePred inR]
    (acc : ℚ × Intersection) : ℚ × Intersection :=
  if tk < acc.1 ∧ tk ≥ 0 then
    if inR jk.p then
      (tk, { acc.2 with p := oldP0 + tk • oldV, n := normalize sqrtF (mat3MulVec3 N jk.n) })
    else acc
  else acc

/-- `rayIntersectBox` from the shader: six side-plane tests against the
`MInv`-transformed ray, each accepted only when the local hit point lies
within the box extent on the two other axes. -/
def rayIntersectBox (sqrtF : ℚ → ℚ) (ray : Ray) (W H L : ℚ) (c : Vec3) (mIdx : ℤ)
    (MInv : Mat4) (N : Mat3) (i0 : Intersection) : ℚ × Intersection :=
  let i1 := { i0 with mIdx := mIdx }
  let oldP0 := ray.p0
  let oldV := ray.v
  let newP0 := xyzOf (mat4MulVec4 MInv (toVec4 ray.p0 1))
  let newV := xyzOf (mat4MulVec4 MInv (toVec4 ray.v 0))
  let ray : Ray := ⟨newP0, newV⟩
  let xmax := c.x + W / 2
  let xmin := c.x - W / 2
  let ymax := c.y + H / 2
  let ymin := c.y - H / 2
  let zmax := c.z + L / 2
  let zmin := c.z - L / 2
  let r1 := rayIntersectPlane ray ⟨1,0,0⟩ ⟨xmax, c.y, c.z⟩ mIdx blankIntersection
  let r2 := rayIntersectPlane ray ⟨1,0,0⟩ ⟨xmin, c.y, c.z⟩ mIdx blankIntersection
  let r3 := rayIntersectPlane ray ⟨0,1,0⟩ ⟨c.x, ymax, c.z⟩ mIdx blankIntersection
  let r4 := rayIntersectPlane ray ⟨0,1,0⟩ ⟨c.x, ymin, c.z⟩ mIdx blankIntersection
  let r5 := rayIntersectPlane ray ⟨0,0,1⟩ ⟨c.x, c.y, zmax⟩ mIdx blankIntersection
  let r6 := rayIntersectPlane ray ⟨0,0,1⟩ ⟨c.x, c.y, zmin⟩ mIdx blankIntersection
  let s0 : ℚ × Intersection := (INF, i1)
  let s1 := boxSide sqrtF oldP0 oldV N r1.1 r1.2
    (fun p => ymin < p.y ∧ p.y < ymax ∧ zmin < p.z ∧ p.z < zmax) s0
  let s2 := boxSide sqrtF oldP0 oldV N r2.1 r2.2
    (fun p => ymin < p.y ∧ p.y < ymax ∧ zmin < p.z ∧ p.z < zmax) s1
  let s3 := boxSide sqrtF oldP0 oldV N r3.1 r3.2
    (fun p => xmin < p.x ∧ p.x < xmax ∧ zmin < p.z ∧ p.z < zmax) s2
  let s4 := boxSide sqrtF oldP0 oldV N r4.1 r4.2
    (fun p => xmin < p.x ∧ p.x < xmax ∧ zmin < p.z ∧ p.z < zmax) s3
  let s5 := boxSide sqrtF oldP0 oldV N r5.1 r5.2
    (fun p => xmin < p.x ∧ p.x < xmax ∧ ymin < p.y ∧ p.y < ymax) s4
  let s6 := boxSide sqrtF oldP0 oldV N r6.1 r6.2
    (fun p => xmin < p.x ∧ p.x < xmax ∧ ymin < p.y ∧ p.y < ymax) s5
  (s6.1, { s6.2 with sCoeff := 1 })

/-- `rayIntersectCylinder` from the shader — the body is an unimplemented
stub that writes dummy values and always returns `INF`. -/
def rayIntersectCylinder (ray : Ray) (c : Vec3) (r h : ℚ) (mIdx : ℤ)
    (MInv : Mat4) (N : Mat3) (i0 : Intersection) : ℚ × Intersection :=
  (INF, { i0 with mIdx := mIdx, sCoeff := 1, p := ⟨0,0,0⟩, n := ⟨0,0,0⟩ })

/-- `rayIntersectCone` from the shader — the body is an unimplemented stub
that writes dummy values and always returns `INF`. -/
def rayIntersectCone (ray : Ray) (c : Vec3) (r h : ℚ) (mIdx : ℤ)
    (MInv : Mat4) (N : Mat3) (i0 : Intersection) : ℚ × Intersection :=
  (INF, { i0 with mIdx := mIdx, sCoeff := 1, p := ⟨0,0,0⟩, n := ⟨0,0,0⟩ })

/-- `getMaterial` from the shader: loop `i` over `[0, MAX_MATERIALS)` and keep
`materials[i]` whenever `i == mIdx`; the returned variable starts out as the
uninitialised `Material m` (modelled by `blankMaterial`). -/
def getMaterial (materials : Fin 10 → Material) (mIdx : ℤ) : Material :=
  (List.finRange 10).foldl
    (fun (m : Material) (i : Fin 10) => if ((i : ℕ) : ℤ) = mIdx then materials i else m)
    blankMaterial

/-- GLSL `fract(x) = x - floor(x)`. -/
def fract (q : ℚ) : ℚ := q - ⌊q⌋

/-- `random` from the shader:
`fract(sin(dot(st.xy, vec2(12.9898,78.233))) * 43758.5453123)`, with GLSL
`sin` supplied as the function parameter `sinF`. -/
def random (sinF : ℚ → ℚ) (st : ℚ × ℚ) : ℚ :=
  fract (sinF (st.1 * 12.9898 + st.2 * 78.233) * 43758.5453123)

/-- `pointInShadow` from the shader.  The generated `rayIntersectScene`
routine is supplied as the parameter `scene`, giving the returned `t`
(the out-parameter `intersect2` is never read at this call site). -/
def pointInShadow (scene : Ray → ℚ) (sqrtF : ℚ → ℚ) (it : Intersection)
    (l : Light) : Bool :=
  let dir := l.pos - it.p
  let ray : Ray := ⟨it.p + EPS • normalize sqrtF dir, dir⟩
  let t := scene ray
  if t ≥ 1 then false else true

/-- `pointInSoftShadow` from the shader: `1.0` when the shadow ray reaches
the light (`t >= 1.0`), else `0.0`. -/
def pointInSoftShadow (scene : Ray → ℚ) (sqrtF : ℚ → ℚ) (it : Intersection)
    (l : Light) : ℚ :=
  let dir := l.pos - it.p
  let ray : Ray := ⟨it.p + EPS • normalize sqrtF dir, dir⟩
  let t := scene ray
  if t ≥ 1 then 1 else 0

/-- The loop of `softShadow`: each iteration jitters the light position by
`beaconRadius * normalize(vec3(x,y,z))` from `oldPosition`, accumulates one
`pointInSoftShadow` sample, and then advances the pseudo-random state
sequentially — note the source updates `x` first and the new `x` feeds the
`z` update (`z = random(vec2(z,x))`). -/
def softShadowGo (scene : Ray → ℚ) (sqrtF sinF : ℚ → ℚ) (beaconRadius : ℚ)
    (it : Intersection) (l : Light) (oldPosition : Vec3) :
    ℕ → ℚ → ℚ → ℚ → ℚ → ℚ
  | 0, _, _, _, counter => counter
  | Nat.succ k, x, y, z, counter =>
    let randomValues := beaconRadius • normalize sqrtF ⟨x, y, z⟩
    let l2 := { l with pos := oldPosition + randomValues }
    let counter2 := counter + pointInSoftShadow scene sqrtF it l2
    let x2 := random sinF (x, y)
    let y2 := random sinF (y, z)
    let z2 := random sinF (z, x2)
    softShadowGo scene sqrtF sinF beaconRadius it l oldPosition k x2 y2 z2 counter2

/-- `softShadow` from the shader: the unjittered sample plus `SOFT_NUMBER`
jittered samples, divided by `SOFT_NUMBER + 1`. -/
def softShadow (scene : Ray → ℚ) (sqrtF sinF : ℚ → ℚ) (beaconRadius : ℚ)
    (it : Intersection) (l : Light) : ℚ :=
  let x := random sinF (it.p.x, it.p.y)
  let y := random sinF (it.p.y, it.p.z)
  let z := random sinF (it.p.x, it.p.z)
  let oldPosition := l.pos
  let counter := pointInSoftShadow scene sqrtF it l
  let counter2 := softShadowGo scene sqrtF sinF beaconRadius it l oldPosition
    SOFT_NUMBER x y z counter
  counter2 / ((SOFT_NUMBER : ℚ) + 1)

/-- Spec-side description of the soft-shadow sampling: the jittered light
positions visited by the loop of `softShadow`, in order. -/
def softShadowJitterList (sqrtF sinF : ℚ → ℚ) (beaconRadius : ℚ)
    (oldPosition : Vec3) : ℕ → ℚ → ℚ → ℚ → List Vec3
  | 0, _, _, _ => []
  | Nat.succ k, x, y, z =>
    let randomValues := beaconRadius • normalize sqrtF ⟨x, y, z⟩
    let x2 := random sinF (x, y)
    let y2 := random sinF (y, z)
    let z2 := random sinF (z, x2)
    (oldPosition + randomValues) ::
      softShadowJitterList sqrtF sinF beaconRadius oldPosition k x2 y2 z2

/-- Spec-side description: the `SOFT_NUMBER + 1` light positions sampled by
`softShadow` for a hit point `p` and a light at `lpos` — the unjittered
position followed by the jittered ones. -/
def softShadowSamples (sqrtF sinF : ℚ → ℚ) (beaconRadius : ℚ)
    (p lpos : Vec3) : List Vec3 :=
  lpos :: softShadowJitterList sqrtF sinF beaconRadius lpos SOFT_NUMBER
    (random sinF (p.x, p.y)) (random sinF (p.y, p.z)) (random sinF (p.x, p.z))

/-- Spec-side predicate: the shadow-ray sample from hit point `p` toward the
(possibly jittered) light position `q` is unoccluded, i.e. the nearest scene
intersection along that ray has `t >= 1` in light-relative parameterisation. -/
def sampleUnoccluded (scene : Ray → ℚ) (sqrtF : ℚ → ℚ) (p q : Vec3) : Bool :=
  decide (scene ⟨p + EPS • normalize sqrtF (q - p), q - p⟩ ≥ 1)

/-- Spec-side count of unoccluded samples among the `SOFT_NUMBER + 1`
soft-shadow samples for hit point `p` and light position `lpos`. -/
def unoccludedCount (scene : Ray → ℚ) (sqrtF sinF : ℚ → ℚ) (beaconRadius : ℚ)
    (p lpos : Vec3) : ℕ :=
  ((softShadowSamples sqrtF sinF beaconRadius p lpos).filter
    (fun q => sampleUnoccluded scene sqrtF p q)).length

/-- The per-frame uniform state read by the shading stage. -/
structure Uniforms where
  numLights : ℤ
  lights : Fin 10 → Light
  eye : Vec3
  beaconRadius : ℚ

/-- The body of one iteration of the light loop in `getPhongColor`: the term
`ci * shadow * (diffuse + specular)` added to `color` for one light.  GLSL
`cos` and `pow` are supplied as the parameters `cosF` and `powF`.  The
normal `it.n` is assumed already normalised by `getPhongColor`. -/
def phongLightTerm (scene : Ray → ℚ) (sqrtF sinF cosF : ℚ → ℚ)
    (powF : ℚ → ℚ → ℚ) (eye : Vec3) (beaconRadius : ℚ)
    (it : Intersection) (m : Material) (light : Light) : Vec3 :=
  let shadow := softShadow scene sqrtF sinF beaconRadius it light
  let normalizedTowards := normalize sqrtF light.towards
  let d := light.pos - it.p
  let towardsAngle := dot (-(normalize sqrtF d)) normalizedTowards
  let spotlight : ℚ := if towardsAngle ≤ cosF light.angle then 0 else 1
  let ci := (1 / (light.atten.x + light.atten.y * lengthV sqrtF d
    + light.atten.z * dot d d)) • light.color
  let ci2 := spotlight • ci
  let d2 := normalize sqrtF d
  let kdCoeff := dot d2 it.n
  let diffuse := if kdCoeff ≥ 0 then kdCoeff • m.kd else (⟨0,0,0⟩ : Vec3)
  let dh := normalize sqrtF (eye - it.p)
  let h := -(reflectV d2 it.n)
  let ksCoeff := powF (dot h dh) m.shininess
  let specular := if ksCoeff ≥ 0 then ksCoeff • m.ks else (⟨0,0,0⟩ : Vec3)
  shadow • vmul ci2 (diffuse + specular)

/-- Modelled from the spec side for comparison: the same per-light Phong
term with the cone (spotlight) restriction removed — the "retained"
contribution of a light. -/
def phongLightTermRetained (scene : Ray → ℚ) (sqrtF sinF cosF : ℚ → ℚ)
    (powF : ℚ → ℚ → ℚ) (eye : Vec3) (beaconRadius : ℚ)
    (it : Intersection) (m : Material) (light : Light) : Vec3 :=
  let shadow := softShadow scene sqrtF sinF beaconRadius it light
  let d := light.pos - it.p
  let ci := (1 / (light.atten.x + light.atten.y * lengthV sqrtF d
    + light.atten.z * dot d d)) • light.color
  let d2 := normalize sqrtF d
  let kdCoeff := dot d2 it.n
  let diffuse := if kdCoeff ≥ 0 then kdCoeff • m.kd else (⟨0,0,0⟩ : Vec3)
  let dh := normalize sqrtF (eye - it.p)
  let h := -(reflectV d2 it.n)
  let ksCoeff := powF (dot h dh) m.shininess
  let specular := if ksCoeff ≥ 0 then ksCoeff • m.ks else (⟨0,0,0⟩ : Vec3)
  shadow • vmul ci (diffuse + specular)

/-- The light loop of `getPhongColor`:
`for (int i = 0; i < MAX_LIGHTS; i++) { if (i < numLights) {...} else break; }`,
written with an explicit fuel argument (the loop executes at most 10
iterations). -/
def phongColorGo (scene : Ray → ℚ) (sqrtF sinF cosF : ℚ → ℚ)
    (powF : ℚ → ℚ → ℚ) (u : Uniforms) (it : Intersection) (m : Material)
    (i : ℕ) (color : Vec3) : ℕ → Vec3
  | 0 => color
  | Nat.succ fuel =>
    if h : i < 10 then
      if (i : ℤ) < u.numLights then
        phongColorGo scene sqrtF sinF cosF powF u it m (i + 1)
          (color + phongLightTerm scene sqrtF sinF cosF powF u.eye u.beaconRadius
            it m (u.lights ⟨i, h⟩)) fuel
      else color
    else color

/-- `getPhongColor` from the shader: normalise the intersection normal, then
accumulate the per-light Phong terms for lights `0 ≤ i < numLights`
(capped at `MAX_LIGHTS = 10`). -/
def getPhongColor (scene : Ray → ℚ) (sqrtF sinF cosF : ℚ → ℚ)
    (powF : ℚ → ℚ → ℚ) (u : Uniforms) (it0 : Intersection) (m : Material) : Vec3 :=
  let it := { it0 with n := normalize sqrtF it0.n }
  phongColorGo scene sqrtF sinF cosF powF u it m 0 ⟨0,0,0⟩ 10

/-- A light of the scene description as read by `updateUniforms`:
`scene.lights[i].camera.pos` and `scene.lights[i].color`. -/
structure SceneLight where
  pos : Vec3
  color : Vec3
deriving DecidableEq, Repr

/-- The light-binding part of `updateUniforms` in raycanvas.js:
`numLights = Math.min(MAX_LIGHTS, scene.lights.length)` is bound, and for
`i < numLights` the position and color of light `i` are uploaded; uniform
array slots at or beyond `numLights` keep whatever they held before
(`prev`). -/
def updateLightUniforms (sceneLights : List SceneLight) (prev : Uniforms) : Uniforms :=
  let numLights : ℤ := ((min 10 sceneLights.length : ℕ) : ℤ)
  { prev with
    numLights := numLights,
    lights := fun i =>
      if (i : ℤ) < numLights then
        { prev.lights i with
          pos := (sceneLights.getD i ⟨⟨0,0,0⟩, ⟨0,0,0⟩⟩).pos,
          color := (sceneLights.getD i ⟨⟨0,0,0⟩, ⟨0,0,0⟩⟩).color }
      else prev.lights i }

/-- glMatrix `mat4.multiply(out, a, b)` (column-major, `out = a * b`). -/
def mat4Mul (A B : Mat4) : Mat4 :=
  ⟨A.a0*B.a0 + A.a4*B.a1 + A.a8*B.a2 + A.a12*B.a3,
   A.a1*B.a0 + A.a5*B.a1 + A.a9*B.a2 + A.a13*B.a3,
   A.a2*B.a0 + A.a6*B.a1 + A.a10*B.a2 + A.a14*B.a3,
   A.a3*B.a0 + A.a7*B.a1 + A.a11*B.a2 + A.a15*B.a3,
   A.a0*B.a4 + A.a4*B.a5 + A.a8*B.a6 + A.a12*B.a7,
   A.a1*B.a4 + A.a5*B.a5 + A.a9*B.a6 + A.a13*B.a7,
   A.a2*B.a4 + A.a6*B.a5 + A.a10*B.a6 + A.a14*B.a7,
   A.a3*B.a4 + A.a7*B.a5 + A.a11*B.a6 + A.a15*B.a7,
   A.a0*B.a8 + A.a4*B.a9 + A.a8*B.a10 + A.a12*B.a11,
   A.a1*B.a8 + A.a5*B.a9 + A.a9*B.a10 + A.a13*B.a11,
   A.a2*B.a8 + A.a6*B.a9 + A.a10*B.a10 + A.a14*B.a11,
   A.a3*B.a8 + A.a7*B.a9 + A.a11*B.a10 + A.a15*B.a11,
   A.a0*B.a12 + A.a4*B.a13 + A.a8*B.a14 + A.a12*B.a15,
   A.a1*B.a12 + A.a5*B.a13 + A.a9*B.a14 + A.a13*B.a15,
   A.a2*B.a12 + A.a6*B.a13 + A.a10*B.a14 + A.a14*B.a15,
   A.a3*B.a12 + A.a7*B.a13 + A.a11*B.a14 + A.a15*B.a15⟩

/-- glMatrix `mat4.invert(out, a)`.  On a singular matrix glMatrix returns
null and leaves `out` untouched; in raycanvas.js `MInv` is created as the
identity, so the singular case is modelled by returning the identity. -/
def mat4Invert (m : Mat4) : Mat4 :=
  let b00 := m.a0*m.a5 - m.a1*m.a4
  let b01 := m.a0*m.a6 - m.a2*m.a4
  let b02 := m.a0*m.a7 - m.a3*m.a4
  let b03 := m.a1*m.a6 - m.a2*m.a5
  let b04 := m.a1*m.a7 - m.a3*m.a5
  let b05 := m.a2*m.a7 - m.a3*m.a6
  let b06 := m.a8*m.a13 - m.a9*m.a12
  let b07 := m.a8*m.a14 - m.a10*m.a12
  let b08 := m.a8*m.a15 - m.a11*m.a12
  let b09 := m.a9*m.a14 - m.a10*m.a13
  let b10 := m.a9*m.a15 - m.a11*m.a13
  let b11 := m.a10*m.a15 - m.a11*m.a14
  let det := b00*b11 - b01*b10 + b02*b09 + b03*b08 - b04*b07 + b05*b06
  if det = 0 then mat4Identity else
  let i := 1 / det
  ⟨(m.a5*b11 - m.a6*b10 + m.a7*b09) * i,
   (m.a2*b10 - m.a1*b11 - m.a3*b09) * i,
   (m.a13*b05 - m.a14*b04 + m.a15*b03) * i,
   (m.a10*b04 - m.a9*b05 - m.a11*b03) * i,
   (m.a6*b08 - m.a4*b11 - m.a7*b07) * i,
   (m.a0*b11 - m.a2*b08 + m.a3*b07) * i,
   (m.a14*b02 - m.a12*b05 - m.a15*b01) * i,
   (m.a8*b05 - m.a10*b02 + m.a11*b01) * i,
   (m.a4*b10 - m.a5*b08 + m.a7*b06) * i,
   (m.a1*b08 - m.a0*b10 - m.a3*b06) * i,
   (m.a12*b04 - m.a13*b02 + m.a15*b00) * i,
   (m.a9*b02 - m.a8*b04 - m.a11*b00) * i,
   (m.a5*b07 - m.a4*b09 - m.a6*b06) * i,
   (m.a0*b09 - m.a1*b07 + m.a2*b06) * i,
   (m.a13*b01 - m.a12*b03 - m.a14*b00) * i,
   (m.a8*b03 - m.a9*b01 + m.a10*b00) * i⟩

/-- glMatrix `mat3.normalFromMat4(out, a)` — the inverse-transpose of the
upper-left 3x3 of `a`.  As with `mat4Invert`, the singular case is modelled
by the identity (`N` is created as `mat3.create()` in raycanvas.js). -/
def normalFromMat4 (m : Mat4) : Mat3 :=
  let b00 := m.a0*m.a5 - m.a1*m.a4
  let b01 := m.a0*m.a6 - m.a2*m.a4
  let b02 := m.a0*m.a7 - m.a3*m.a4
  let b03 := m.a1*m.a6 - m.a2*m.a5
  let b04 := m.a1*m.a7 - m.a3*m.a5
  let b05 := m.a2*m.a7 - m.a3*m.a6
  let b06 := m.a8*m.a13 - m.a9*m.a12
  let b07 := m.a8*m.a14 - m.a10*m.a12
  let b08 := m.a8*m.a15 - m.a11*m.a12
  let b09 := m.a9*m.a14 - m.a10*m.a13
  let b10 := m.a9*m.a15 - m.a11*m.a13
  let b11 := m.a10*m.a15 - m.a11*m.a14
  let det := b00*b11 - b01*b10 + b02*b09 + b03*b08 - b04*b07 + b05*b06
  if det = 0 then mat3Identity else
  let i := 1 / det
  ⟨(m.a5*b11 - m.a6*b10 + m.a7*b09) * i,
   (m.a6*b08 - m.a4*b11 - m.a7*b07) * i,
   (m.a4*b10 - m.a5*b08 + m.a7*b06) * i,
   (m.a2*b10 - m.a1*b11 - m.a3*b09) * i,
   (m.a0*b11 - m.a2*b08 + m.a3*b07) * i,
   (m.a1*b08 - m.a0*b10 - m.a3*b06) * i,
   (m.a13*b05 - m.a14*b04 + m.a15*b03) * i,
   (m.a14*b02 - m.a12*b05 - m.a15*b01) * i,
   (m.a12*b04 - m.a13*b02 + m.a15*b00) * i⟩

/-- Model of JavaScript `Number.prototype.toFixed(5)` on exactly
representable inputs: five digits after the decimal point, rounding half
away from zero on the magnitude. -/
def toFixed5 (q : ℚ) : String :=
  let scaled : ℤ := ⌊|q| * 100000 + 1/2⌋
  let ip := scaled / 100000
  let fp := scaled % 100000
  let fs := toString fp
  (if q < 0 then "-" else "") ++ toString ip ++ "." ++
    String.mk (List.replicate (5 - fs.length) '0') ++ fs

/-- `vec3ToGLSLStr` from raycanvas.js (with the default `k = 5` digits). -/
def vec3ToGLSLStr (v : Vec3) : String :=
  "vec3(" ++ toFixed5 v.x ++ "," ++ toFixed5 v.y ++ "," ++ toFixed5 v.z ++ ")"

/-- The entries of a `Mat4` in array (column-major) order. -/
def mat4ToList (m : Mat4) : List ℚ :=
  [m.a0, m.a1, m.a2, m.a3, m.a4, m.a5, m.a6, m.a7,
   m.a8, m.a9, m.a10, m.a11, m.a12, m.a13, m.a14, m.a15]

/-- The entries of a `Mat3` in array (column-major) order. -/
def mat3ToList (m : Mat3) : List ℚ :=
  [m.n0, m.n1, m.n2, m.n3, m.n4, m.n5, m.n6, m.n7, m.n8]

/-- `matToGLSLStr` from raycanvas.js on a 16-entry matrix (default `k = 5`). -/
def matToGLSLStr4 (m : Mat4) : String :=
  "mat4(" ++ String.intercalate "," ((mat4ToList m).map toFixed5) ++ ")"

/-- `matToGLSLStr` from raycanvas.js on a 9-entry matrix (default `k = 5`). -/
def matToGLSLStr3 (m : Mat3) : String :=
  "mat3(" ++ String.intercalate "," ((mat3ToList m).map toFixed5) ++ ")"

/-- `DEFAULT_RAY_INTERSECT_SCENE_SRC` from raycanvas.js. -/
def DEFAULT_RAY_INTERSECT_SCENE_SRC : String :=
  "float rayIntersectScene(Ray ray, out Intersection intersect)\x7breturn INF;\x7d"

/-- `CHECK_NEAREST_INTERSECTION_SRC` from raycanvas.js — the adoption test
appended after every emitted primitive intersection call. -/
def CHECK_NEAREST_INTERSECTION_SRC : String :=
  "\tif(tCurr < tMin) \x7b\n\t\ttMin = tCurr;\n\t\tintersect = intersectCurr;\n\t\x7d\n"

/-- Semantics of `CHECK_NEAREST_INTERSECTION_SRC`: the generated
`rayIntersectScene` holds `(tMin, intersect)` and, after computing a
candidate `(tCurr, intersectCurr)`, adopts it exactly when
`tCurr < tMin` (strict). -/
def checkNearest (best cand : ℚ × Intersection) : ℚ × Intersection :=
  if cand.1 < best.1 then cand else best

/-- Semantics of the generated `rayIntersectScene` body: starting from
`tMin = INF` and the caller's (uninitialised) out-parameter value `i0`,
fold `checkNearest` over the candidate results of the emitted intersection
calls, in emission (traversal) order. -/
def rayIntersectSceneRun (cands : List (ℚ × Intersection)) (i0 : Intersection) :
    ℚ × Intersection :=
  cands.foldl checkNearest (INF, i0)

/-- Mesh data as read by the compiler: an identity (JS object identity,
used for the `prefix`-already-assigned check), the vertex positions, and
the faces as lists of vertex IDs. -/
structure MeshData where
  meshId : ℕ
  vertices : List Vec3
  faces : List (List ℕ)
deriving DecidableEq, Repr

/-- The shape variants dispatched on `shape.type` in `updateSceneRec`;
`Option` fields model the `'width' in shape`-style presence checks (with
the documented defaults used when absent). -/
inductive ShapeData where
  | box : Option ℚ → Option ℚ → Option ℚ → Option Vec3 → ShapeData
  | sphere : Option ℚ → Option Vec3 → ShapeData
  | cylinder : Option ℚ → Option ℚ → Option Vec3 → ShapeData
  | cone : Option ℚ → Option ℚ → Option Vec3 → ShapeData
  | mesh : Option MeshData → ShapeData
deriving DecidableEq, Repr

/-- A shape instance: its resolved material index (`shape.material.i`;
`none` models a shape with no material, which is skipped with a logged
error) and its data. -/
structure Shape where
  material : Option ℕ
  data : ShapeData
deriving DecidableEq, Repr

mutual

/-- A scene-graph node: local transform, attached shapes, child nodes. -/
inductive SceneNode where
  | node : Mat4 → List Shape → SceneForest → SceneNode

/-- The ordered children of a scene-graph node (a list of nodes, as a
mutual inductive so the traversal below is structurally recursive). -/
inductive SceneForest where
  | nil : SceneForest
  | cons : SceneNode → SceneForest → SceneForest

end

/-- Compiler state threaded through `updateSceneRec`: `glcanvas.meshIdx`
and the `mesh.prefix` tags already assigned to meshes (keyed by mesh
identity — this property is stored on the mesh object itself and therefore
persists across compilations). -/
structure CompState where
  meshIdx : ℕ
  tags : List (ℕ × String)
deriving DecidableEq, Repr

/-- One emitted triangle test: the text of
`tCurr = rayIntersectTriangle(ray, <v_i0>, <v_i1>, <v_i2>, mIdx, MInv, N,
intersectCurr);` followed by the nearest-intersection check. -/
def emitTriangleCall (vertTag : String) (i0 i1 i2 : ℕ)
    (mIdxS minvS nS : String) : String :=
  "\ttCurr = rayIntersectTriangle(ray" ++ ", " ++ vertTag ++ toString i0 ++
    ", " ++ vertTag ++ toString i1 ++ ", " ++ vertTag ++ toString i2 ++
    ", " ++ mIdxS ++ ", " ++ minvS ++ ", " ++ nS ++ ", intersectCurr);\n" ++
    CHECK_NEAREST_INTERSECTION_SRC

/-- The triangle-fan loop of the mesh branch of `updateSceneRec`: for
`t` in `[0, verts.length - 2)`, one triangle test on the vertex IDs
`verts[0]`, `verts[(t+1) % len]`, `verts[(t+2) % len]`. -/
def emitFaceTriangles (vertTag mIdxS minvS nS : String) (ids : List ℕ) : String :=
  String.join ((List.range (ids.length - 2)).map (fun t =>
    emitTriangleCall vertTag (ids.getD 0 0) (ids.getD ((t + 1) % ids.length) 0)
      (ids.getD ((t + 2) % ids.length) 0) mIdxS minvS nS))

/-- The body of `node.shapes.forEach` in `updateSceneRec`: append the code
emitted for one shape to the accumulated string, threading the compiler
state (which only the mesh branch touches). -/
def emitShape (MInv : Mat4) (N : Mat3) (acc : String × CompState)
    (sh : Shape) : String × CompState :=
  match sh.material with
  | none => acc
  | some mIdx =>
    match sh.data with
    | .box w h l ctr =>
      let width := w.getD 1
      let height := h.getD 1
      let length := l.getD 1
      let center := ctr.getD ⟨0,0,0⟩
      (acc.1 ++ "\ttCurr = rayIntersectBox(" ++ "ray, " ++ toFixed5 width ++
        ", " ++ toFixed5 height ++ ", " ++ toFixed5 length ++
        ", " ++ vec3ToGLSLStr center ++ ", " ++ toString mIdx ++
        ", " ++ matToGLSLStr4 MInv ++ ", " ++ matToGLSLStr3 N ++
        ", intersectCurr);\n" ++ CHECK_NEAREST_INTERSECTION_SRC, acc.2)
    | .sphere rad ctr =>
      let radius := rad.getD 1
      let center := ctr.getD ⟨0,0,0⟩
      (acc.1 ++ "\ttCurr = rayIntersectSphere(" ++ "ray, " ++
        vec3ToGLSLStr center ++ ", " ++ toFixed5 radius ++ ", " ++ toString mIdx ++
        ", " ++ matToGLSLStr4 MInv ++ ", " ++ matToGLSLStr3 N ++
        ", intersectCurr);\n" ++ CHECK_NEAREST_INTERSECTION_SRC, acc.2)
    | .cylinder rad h ctr =>
      let radius := rad.getD 1
      let height := h.getD 1
      let center := ctr.getD ⟨0,0,0⟩
      (acc.1 ++ "\ttCurr = rayIntersectCylinder(" ++ "ray, " ++
        vec3ToGLSLStr center ++ ", " ++ toFixed5 radius ++ ", " ++
        toFixed5 height ++ ", " ++ toString mIdx ++
        ", " ++ matToGLSLStr4 MInv ++ ", " ++ matToGLSLStr3 N ++
        ", intersectCurr);\n" ++ CHECK_NEAREST_INTERSECTION_SRC, acc.2)
    | .cone rad h ctr =>
      let radius := rad.getD 1
      let height := h.getD 1
      let center := ctr.getD ⟨0,0,0⟩
      (acc.1 ++ "\ttCurr = rayIntersectCone(" ++ "ray, " ++
        vec3ToGLSLStr center ++ ", " ++ toFixed5 radius ++ ", " ++
        toFixed5 height ++ ", " ++ toString mIdx ++
        ", " ++ matToGLSLStr4 MInv ++ ", " ++ matToGLSLStr3 N ++
        ", intersectCurr);\n" ++ CHECK_NEAREST_INTERSECTION_SRC, acc.2)
    | .mesh none => acc
    | .mesh (some md) =>
      let step :=
        match List.lookup md.meshId acc.2.tags with
        | some tg => (tg, "", acc.2)
        | none =>
          let tg := "m" ++ toString acc.2.meshIdx
          let decls := String.join ((List.range md.vertices.length).map (fun i =>
            "\tvec3 " ++ tg ++ "_" ++ "v" ++ toString i ++ " = " ++
              vec3ToGLSLStr (md.vertices.getD i ⟨0,0,0⟩) ++ ";\n"))
          (tg, decls, { meshIdx := acc.2.meshIdx + 1,
                        tags := acc.2.tags ++ [(md.meshId, tg)] })
      let vertTag := step.1 ++ "_" ++ "v"
      let facesStr := String.join (md.faces.map (fun ids =>
        emitFaceTriangles vertTag (toString mIdx) (matToGLSLStr4 MInv)
          (matToGLSLStr3 N) ids))
      (acc.1 ++ step.2.1 ++ facesStr, step.2.2)

mutual

/-- `updateSceneRec` from raycanvas.js: accumulate the node transform,
derive `MInv` and the normal matrix, emit code for every attached shape,
then recurse into the children. -/
def updateSceneRec (node : SceneNode) (transform : Mat4) (st : CompState) :
    String × CompState :=
  match node with
  | .node tr shapes children =>
    let nextTransform := mat4Mul transform tr
    let N := normalFromMat4 nextTransform
    let MInv := mat4Invert nextTransform
    let shapesRes := shapes.foldl (emitShape MInv N) ("", st)
    let childRes := updateSceneForest children nextTransform shapesRes.2
    (shapesRes.1 ++ childRes.1, childRes.2)

/-- The child loop of `updateSceneRec`: each child's emitted string is
appended followed by a newline, threading the compiler state left to
right. -/
def updateSceneForest (cs : SceneForest) (transform : Mat4) (st : CompState) :
    String × CompState :=
  match cs with
  | .nil => ("", st)
  | .cons c rest =>
    let r := updateSceneRec c transform st
    let r2 := updateSceneForest rest transform r.2
    (r.1 ++ "\n" ++ r2.1, r2.2)

end

/-- `updateScene` from raycanvas.js, restricted to its code-generation
effect: reset `meshIdx` to 0 (the `mesh.prefix` tags persist, since they
live on the mesh objects), wrap the recursively emitted per-node code in
the fixed `rayIntersectScene` header and footer, and return the generated
source together with the surviving mesh-tag state. -/
def updateScene (sceneChildren : SceneForest) (tags0 : List (ℕ × String)) :
    String × List (ℕ × String) :=
  let header := "\n\n" ++
    "float rayIntersectScene(Ray ray, out Intersection intersect) \x7b\n" ++
    "\tfloat tMin = INF;\n" ++ "\tIntersection intersectCurr;\n" ++
    "\tfloat tCurr = INF;\n"
  let st0 : CompState := { meshIdx := 0, tags := tags0 }
  let bodyRes := updateSceneForest sceneChildren mat4Identity st0
  (header ++ bodyRes.1 ++ "\treturn tMin;\n\x7d", bodyRes.2.tags)

/-- A GL program object as raycanvas.js sees it: an identity and whether
the link succeeded (`gl.getProgramParameter(shader, gl.LINK_STATUS)`). -/
structure GLProgram where
  progId : ℕ
  linked : Bool
deriving DecidableEq, Repr

/-- The raycanvas state touched by `setupShaders`. -/
structure CanvasState where
  fragmentShader : Option ℕ
  shader : Option GLProgram
  alerts : List String
  logs : List String
deriving DecidableEq, Repr

/-- JavaScript `String.replace(pat, rep)` — first occurrence only. -/
def replaceFirst (s pat rep : String) : String :=
  match s.splitOn pat with
  | [] => s
  | [a] => a
  | a :: rest => a ++ rep ++ String.intercalate pat rest

/-- `setupShaders` from raycanvas.js, as a transition on the canvas state.
The externally compiled fragment shader and created program are identified
by `newFragId` / `newProgId`, and the external GL link outcome by
`linkStatus`.  The source: deletes the old fragment shader, substitutes
`rayIntersectSceneStr` into the template (logging the result when
`verbose`), stores the new fragment shader, unconditionally assigns
`glcanvas.shader` to the freshly created program, and only then checks
`LINK_STATUS`, alerting (with a fixed message, not the generated source) on
failure — the previous program is not restored. -/
def setupShaders (st : CanvasState) (fragmentSrcPre : String)
    (rayIntersectSceneStr : Option String) (verbose : Option Bool)
    (newFragId newProgId : ℕ) (linkStatus : Bool) : CanvasState :=
  let rayStr := rayIntersectSceneStr.getD DEFAULT_RAY_INTERSECT_SCENE_SRC
  let vb := verbose.getD false
  let s := replaceFirst fragmentSrcPre DEFAULT_RAY_INTERSECT_SCENE_SRC rayStr
  let st1 := { st with logs := if vb then st.logs ++ [s] else st.logs,
                       fragmentShader := some newFragId }
  let st2 := { st1 with shader := some ⟨newProgId, linkStatus⟩ }
  if linkStatus then st2
  else { st2 with alerts := st2.alerts ++ ["Could not initialize raytracing shader"] }

/-! ## Helper lemmas -/

theorem foldl_checkNearest_of_not_lt (l : List (ℚ × Intersection)) :
    ∀ b : ℚ × Intersection, (∀ x ∈ l, ¬ x.1 < b.1) → l.foldl checkNearest b = b := by
  induction l with
  | nil => intro b _; rfl
  | cons x t ih =>
    intro b hb
    have hx : ¬ x.1 < b.1 := hb x (by simp)
    rw [List.foldl_cons, show checkNearest b x = b from by simp [checkNearest, hx]]
    exact ih b (fun y hy => hb y (by simp [hy]))

theorem foldl_checkNearest_lt (c : ℚ) (l : List (ℚ × Intersection)) :
    ∀ b : ℚ × Intersection, c < b.1 → (∀ x ∈ l, c < x.1) →
      c < (l.foldl checkNearest b).1 := by
  induction l with
  | nil => intro b hb _; simpa using hb
  | cons x t ih =>
    intro b hb hl
    rw [List.foldl_cons]
    refine ih (checkNearest b x) ?_ (fun y hy => hl y (by simp [hy]))
    by_cases h : x.1 < b.1
    · simpa [checkNearest, h] using hl x (by simp)
    · simpa [checkNearest, h] using hb

theorem pointInSoftShadow_eq_indicator (scene : Ray → ℚ) (sqrtF : ℚ → ℚ)
    (it : Intersection) (l : Light) (q : Vec3) :
    pointInSoftShadow scene sqrtF it { l with pos := q }
      = if sampleUnoccluded scene sqrtF it.p q then (1:ℚ) else 0 := by
  simp [pointInSoftShadow, sampleUnoccluded]

theorem softShadowGo_eq_sum (scene : Ray → ℚ) (sqrtF sinF : ℚ → ℚ) (beaconR : ℚ)
    (it : Intersection) (l : Light) (oldPos : Vec3) :
    ∀ (n : ℕ) (x y z counter : ℚ),
      softShadowGo scene sqrtF sinF beaconR it l oldPos n x y z counter
        = counter + ((softShadowJitterList sqrtF sinF beaconR oldPos n x y z).map
            (fun q => pointInSoftShadow scene sqrtF it { l with pos := q })).sum := by
  intro n
  induction n with
  | zero => intro x y z counter; simp [softShadowGo, softShadowJitterList]
  | succ k ih =>
    intro x y z counter
    simp only [softShadowGo, softShadowJitterList, List.map_cons, List.sum_cons]
    rw [ih]
    ring

theorem sum_indicator_eq_filter_length (pb : Vec3 → Bool) :
    ∀ L : List Vec3,
      (L.map (fun q => if pb q then (1:ℚ) else 0)).sum = ((L.filter pb).length : ℚ) := by
  intro L
  induction L with
  | nil => simp
  | cons q t ih =>
    by_cases h : pb q <;> simp [h, ih, List.filter_cons] <;> push_cast <;> ring

theorem softShadow_eq_count (scene : Ray → ℚ) (sqrtF sinF : ℚ → ℚ) (beaconR : ℚ)
    (it : Intersection) (l : Light) :
    softShadow scene sqrtF sinF beaconR it l
      = (unoccludedCount scene sqrtF sinF beaconR it.p l.pos : ℚ) / 11 := by
  simp only [softShadow, unoccludedCount, softShadowSamples]
  rw [softShadowGo_eq_sum]
  rw [show pointInSoftShadow scene sqrtF it l
      = if sampleUnoccluded scene sqrtF it.p l.pos then (1:ℚ) else 0 from
    pointInSoftShadow_eq_indicator scene sqrtF it l l.pos]
  simp only [pointInSoftShadow_eq_indicator]
  rw [sum_indicator_eq_filter_length]
  by_cases h : sampleUnoccluded scene sqrtF it.p l.pos <;>
    simp [h, List.filter_cons, SOFT_NUMBER] <;> push_cast <;> ring

theorem getD_take_of_lt (L : List SceneLight) (i : ℕ) (d : SceneLight) (h : i < 10) :
    (L.take 10).getD i d = L.getD i d := by
  simp [List.getD, List.getElem?_take_of_lt h]

theorem updateLightUniforms_take (sceneLights : List SceneLight) (prev : Uniforms)
    (hL : 10 < sceneLights.length) :
    updateLightUniforms sceneLights prev
      = updateLightUniforms (sceneLights.take 10) prev := by
  simp only [updateLightUniforms]
  have h1 : min 10 sceneLights.length = 10 := by omega
  have h2 : min 10 (sceneLights.take 10).length = 10 := by
    simp [List.length_take]
    omega
  rw [h1, h2]
  congr 1
  funext i
  rw [getD_take_of_lt sceneLights (i : ℕ) ⟨⟨0,0,0⟩, ⟨0,0,0⟩⟩ i.isLt]

theorem Vec3.zero_smul_eq (v : Vec3) : (0:ℚ) • v = ⟨0,0,0⟩ := by simp

theorem Vec3.one_smul_eq (v : Vec3) : (1:ℚ) • v = v := by cases v; simp

theorem vmul_zero_left (v : Vec3) : vmul ⟨0,0,0⟩ v = ⟨0,0,0⟩ := by simp [vmul]

theorem Vec3.smul_zero_eq (s : ℚ) : s • (⟨0,0,0⟩ : Vec3) = ⟨0,0,0⟩ := by simp

theorem getMaterial_skip (materials : Fin 10 → Material) (mIdx : ℤ)
    (l : List (Fin 10)) (m0 : Material) (h : ∀ i ∈ l, ((i : ℕ) : ℤ) ≠ mIdx) :
    l.foldl (fun (m : Material) (i : Fin 10) =>
      if ((i : ℕ) : ℤ) = mIdx then materials i else m) m0 = m0 := by
  induction l generalizing m0 with
  | nil => rfl
  | cons x t ih =>
    rw [List.foldl_cons, if_neg (h x (by simp))]
    exact ih m0 (fun i hi => h i (by simp [hi]))

/-! ## Claims -/

/-- Claim C1 (code bug): the claim says every primitive intersection function
returns `t` that is either `INF` or strictly positive, and that a finite hit
reports the hit point `origin + t * direction`.  `rayIntersectTriangle`
violates both: its acceptance test is `t >= 0.0`, so a ray whose origin lies
on the triangle returns `t = 0` (first conjunct), and it writes
`intersect.p` from the `MInv`-transformed local ray, so under a non-identity
transform (here a translation by `(1,0,0)`) the reported point
`(1/2,1/2,0)` differs from `origin + t * direction = (3/2,1/2,0)` (remaining
conjuncts). -/
theorem rayIntersectTriangle_breaks_t_positivity_and_world_point :
    (rayIntersectTriangle
        (fun q => if q = 16 then 4 else if q = 4 then 2 else if q = 1 then 1 else 0)
        ⟨⟨1/2, 1/2, 0⟩, ⟨0, 0, 1⟩⟩ ⟨0,0,0⟩ ⟨2,0,0⟩ ⟨0,2,0⟩ 0
        mat4Identity mat3Identity blankIntersection).1 = 0
    ∧ (rayIntersectTriangle
        (fun q => if q = 16 then 4 else if q = 4 then 2 else if q = 1 then 1 else 0)
        ⟨⟨3/2, 1/2, -1⟩, ⟨0, 0, 1⟩⟩ ⟨0,0,0⟩ ⟨2,0,0⟩ ⟨0,2,0⟩ 0
        ⟨1,0,0,0, 0,1,0,0, 0,0,1,0, -1,0,0,1⟩ mat3Identity blankIntersection).1 = 1
    ∧ (rayIntersectTriangle
        (fun q => if q = 16 then 4 else if q = 4 then 2 else if q = 1 then 1 else 0)
        ⟨⟨3/2, 1/2, -1⟩, ⟨0, 0, 1⟩⟩ ⟨0,0,0⟩ ⟨2,0,0⟩ ⟨0,2,0⟩ 0
        ⟨1,0,0,0, 0,1,0,0, 0,0,1,0, -1,0,0,1⟩ mat3Identity blankIntersection).2.p
      ≠ (⟨3/2, 1/2, -1⟩ : Vec3) + (1 : ℚ) • (⟨0, 0, 1⟩ : Vec3) := by
  decide

/-- Claim C2 (code bug): recompiling the same unchanged scene is claimed to
yield byte-identical generated source, but `mesh.prefix` persists on the
mesh object across compilations, so the second run of `updateScene` on a
scene containing a mesh omits the `vec3 m0_v* = ...;` vertex declarations
and produces different (indeed invalid) source. -/
theorem updateScene_recompilation_not_byte_identical :
    (updateScene
      (.cons (SceneNode.node mat4Identity
        [⟨some 0, ShapeData.mesh (some ⟨0, [⟨0,0,0⟩, ⟨1,0,0⟩, ⟨0,1,0⟩], [[0,1,2]]⟩)⟩] .nil) .nil)
      []).1
    ≠ (updateScene
      (.cons (SceneNode.node mat4Identity
        [⟨some 0, ShapeData.mesh (some ⟨0, [⟨0,0,0⟩, ⟨1,0,0⟩, ⟨0,1,0⟩], [[0,1,2]]⟩)⟩] .nil) .nil)
      (updateScene
        (.cons (SceneNode.node mat4Identity
          [⟨some 0, ShapeData.mesh (some ⟨0, [⟨0,0,0⟩, ⟨1,0,0⟩, ⟨0,1,0⟩], [[0,1,2]]⟩)⟩] .nil) .nil)
        []).2).1 := by
  decide

/-- Claim C3 (code bug): on a link failure `setupShaders` is claimed to
leave the previously active program in force; in fact it assigns
`glcanvas.shader` to the freshly created program before checking
`LINK_STATUS`, so after a failed link the active program is the new,
unlinked one (and the alert diagnostic is a fixed message that does not
carry the generated source). -/
theorem setupShaders_link_failure_discards_previous_program :
    (setupShaders ⟨some 3, some ⟨1, true⟩, [], []⟩
        ("H " ++ DEFAULT_RAY_INTERSECT_SCENE_SRC ++ " T")
        (some "BROKEN SRC") (some true) 4 2 false).shader = some ⟨2, false⟩
    ∧ (setupShaders ⟨some 3, some ⟨1, true⟩, [], []⟩
        ("H " ++ DEFAULT_RAY_INTERSECT_SCENE_SRC ++ " T")
        (some "BROKEN SRC") (some true) 4 2 false).shader ≠ some ⟨1, true⟩
    ∧ (setupShaders ⟨some 3, some ⟨1, true⟩, [], []⟩
        ("H " ++ DEFAULT_RAY_INTERSECT_SCENE_SRC ++ " T")
        (some "BROKEN SRC") (some true) 4 2 false).alerts
      = ["Could not initialize raytracing shader"] := by
  decide

/-- Claim C4: the generated scene routine adopts a candidate only under the
strict `tCurr < tMin` comparison, so the first candidate in traversal order
attaining the minimal distance — in particular the first of two candidates
at exactly equal distance — supplies the reported intersection and material
index: if every earlier candidate is strictly farther and every later one
(including any tie) is no nearer, the fold returns exactly the first
minimal candidate. -/
theorem rayIntersectSceneRun_first_minimum_wins (l1 l2 : List (ℚ × Intersection))
    (c : ℚ × Intersection) (i0 : Intersection)
    (h1 : ∀ x ∈ l1, c.1 < x.1) (h2 : ∀ x ∈ l2, c.1 ≤ x.1) (hINF : c.1 < INF) :
    rayIntersectSceneRun (l1 ++ c :: l2) i0 = c := by
  unfold rayIntersectSceneRun
  rw [List.foldl_append, List.foldl_cons]
  have hb : c.1 < (l1.foldl checkNearest (INF, i0)).1 :=
    foldl_checkNearest_lt c.1 l1 (INF, i0) (by simpa using hINF) h1
  rw [show checkNearest (l1.foldl checkNearest (INF, i0)) c = c from by
    simp [checkNearest, hb]]
  exact foldl_checkNearest_of_not_lt l2 c (fun x hx => not_lt.mpr (h2 x hx))

/-- Witness for C4: two candidates at exactly equal distance `t = 2` with
different material indices; the fold returns the first. -/
theorem rayIntersectSceneRun_first_minimum_wins_witness :
    rayIntersectSceneRun
      [(2, ⟨⟨0,0,2⟩, ⟨0,0,1⟩, 3, 1⟩), (2, ⟨⟨0,0,2⟩, ⟨0,0,-1⟩, 7, 1⟩)]
      blankIntersection = (2, ⟨⟨0,0,2⟩, ⟨0,0,1⟩, 3, 1⟩) :=
  rayIntersectSceneRun_first_minimum_wins []
    [(2, ⟨⟨0,0,2⟩, ⟨0,0,-1⟩, 7, 1⟩)] (2, ⟨⟨0,0,2⟩, ⟨0,0,1⟩, 3, 1⟩)
    blankIntersection (by simp) (by simp) (by norm_num [INF])

/-- Claim C7: for the unit sphere centred at the origin (the claim's
numbers `t = 4`, hit point `(0,0,1)` pin the radius to `1`), identity
instance transform, and the ray from `(0,0,5)` toward `(0,0,-1)`,
`rayIntersectSphere` returns `t = 4` and writes hit point `(0,0,1)` and
outward unit normal `(0,0,1)` — for any incoming out-parameter value and
any model of GLSL `sqrt` that is correct at the two square roots the
computation takes (`sqrt 4 = 2` for the discriminant, `sqrt 1 = 1` for
the normalisation). -/
theorem rayIntersectSphere_canonical (sqrtF : ℚ → ℚ) (mIdx : ℤ) (i0 : Intersection)
    (h4 : sqrtF 4 = 2) (h1 : sqrtF 1 = 1) :
    rayIntersectSphere sqrtF ⟨⟨0,0,5⟩, ⟨0,0,-1⟩⟩ ⟨0,0,0⟩ 1 mIdx mat4Identity mat3Identity i0
      = (4, { i0 with p := ⟨0,0,1⟩, n := ⟨0,0,1⟩, mIdx := mIdx, sCoeff := 1 }) := by
  simp only [rayIntersectSphere, mat4MulVec4, mat3MulVec3, toVec4, xyzOf, dot,
    normalize, lengthV, mat4Identity, mat3Identity, Vec3.sub_def, Vec3.add_def,
    Vec3.smul_def]
  norm_num
  norm_num [h4, h1]

/-- Witness for C7 at a concrete square-root table and out-parameter. -/
theorem rayIntersectSphere_canonical_witness :
    rayIntersectSphere (fun q => if q = 4 then 2 else if q = 1 then 1 else 0)
      ⟨⟨0,0,5⟩, ⟨0,0,-1⟩⟩ ⟨0,0,0⟩ 1 0 mat4Identity mat3Identity blankIntersection
      = (4, { blankIntersection with p := ⟨0,0,1⟩, n := ⟨0,0,1⟩, mIdx := 0, sCoeff := 1 }) :=
  rayIntersectSphere_canonical (fun q => if q = 4 then 2 else if q = 1 then 1 else 0)
    0 blankIntersection (by decide) (by decide)

/-- Claim C8: the triangle-fan emission of the scene compiler turns a
quadrilateral face `[A,B,C,D]` into exactly two `rayIntersectTriangle`
calls, on the vertex triples `(A,B,C)` and `(A,C,D)`, in that order. -/
theorem emitFaceTriangles_quad (vertTag mIdxS minvS nS : String) (a b c d : ℕ) :
    emitFaceTriangles vertTag mIdxS minvS nS [a, b, c, d] =
      emitTriangleCall vertTag a b c mIdxS minvS nS ++
      emitTriangleCall vertTag a c d mIdxS minvS nS := by
  simp [emitFaceTriangles, List.range_succ, String.join]

/-- Claim C5: `softShadow` equals the fraction of the `SOFT_NUMBER + 1 = 11`
shadow samples (the unjittered sample plus the ten jittered ones) that
are unoccluded; consequently it is `1` when all samples are unoccluded,
`0` when all are occluded, and strictly between `0` and `1` otherwise. -/
theorem softShadow_fraction_of_unoccluded (scene : Ray → ℚ) (sqrtF sinF : ℚ → ℚ)
    (beaconR : ℚ) (it : Intersection) (l : Light) :
    softShadow scene sqrtF sinF beaconR it l
      = (unoccludedCount scene sqrtF sinF beaconR it.p l.pos : ℚ) / 11
    ∧ (unoccludedCount scene sqrtF sinF beaconR it.p l.pos = 11 →
        softShadow scene sqrtF sinF beaconR it l = 1)
    ∧ (unoccludedCount scene sqrtF sinF beaconR it.p l.pos = 0 →
        softShadow scene sqrtF sinF beaconR it l = 0)
    ∧ (1 ≤ unoccludedCount scene sqrtF sinF beaconR it.p l.pos →
        unoccludedCount scene sqrtF sinF beaconR it.p l.pos ≤ 10 →
        0 < softShadow scene sqrtF sinF beaconR it l
          ∧ softShadow scene sqrtF sinF beaconR it l < 1) := by
  have hE := softShadow_eq_count scene sqrtF sinF beaconR it l
  refine ⟨hE, ?_, ?_, ?_⟩
  · intro h; rw [hE, h]; norm_num
  · intro h; rw [hE, h]; norm_num
  · intro h1 h2
    rw [hE]
    constructor
    · apply div_pos
      · exact_mod_cast h1
      · norm_num
    · rw [div_lt_one (by norm_num)]
      have h3 : unoccludedCount scene sqrtF sinF beaconR it.p l.pos < 11 := by omega
      exact_mod_cast h3

/-- Witness for C5: a scene function that lets only the unjittered sample
through (the jittered samples are displaced by a nonzero pseudo-random
offset), giving an unoccluded count of `1` and a shadow factor strictly
between `0` and `1`. -/
theorem softShadow_fraction_witness :
    unoccludedCount (fun r => if r.v = (⟨0,0,5⟩ : Vec3) then 1 else 0)
        (fun _ => 1) (fun _ => 1/2) 1 ⟨0,0,0⟩ ⟨0,0,5⟩ = 1
    ∧ 0 < softShadow (fun r => if r.v = (⟨0,0,5⟩ : Vec3) then 1 else 0)
        (fun _ => 1) (fun _ => 1/2) 1 blankIntersection ⟨⟨0,0,5⟩, ⟨1,1,1⟩, ⟨1,0,0⟩, ⟨0,0,-1⟩, 0⟩
    ∧ softShadow (fun r => if r.v = (⟨0,0,5⟩ : Vec3) then 1 else 0)
        (fun _ => 1) (fun _ => 1/2) 1 blankIntersection
        ⟨⟨0,0,5⟩, ⟨1,1,1⟩, ⟨1,0,0⟩, ⟨0,0,-1⟩, 0⟩ < 1 := by
  refine ⟨by decide, ?_⟩
  exact (softShadow_fraction_of_unoccluded
    (fun r => if r.v = (⟨0,0,5⟩ : Vec3) then 1 else 0) (fun _ => 1) (fun _ => 1/2) 1
    blankIntersection ⟨⟨0,0,5⟩, ⟨1,1,1⟩, ⟨1,0,0⟩, ⟨0,0,-1⟩, 0⟩).2.2.2
    (by decide) (by decide)

/-- Claim C6 counterexample: at a concrete boundary input the cosine of the
angle between the light's facing direction and the reversed light vector
equals the cosine of the half-angle — both are `1`, i.e. the angle between
is `0` and the half-angle is `0` under the supplied `cos` model, so the
angle does not exceed the half-angle — yet the code's `<=` comparison
zeroes the light's contribution (third conjunct), although the retained
contribution would be the nonzero `(1,1,1)` (fourth conjunct).  This
refutes the claim that the contribution is retained whenever the angle
does not exceed the half-angle. -/
theorem phongLightTerm_cone_boundary_counterexample :
    dot (-(normalize (fun _ => (1:ℚ)) ((⟨0,0,1⟩ : Vec3) - (⟨0,0,0⟩ : Vec3))))
        (normalize (fun _ => (1:ℚ)) ⟨0,0,-1⟩) = (1 : ℚ)
    ∧ (fun _ => (1:ℚ)) (0:ℚ) = 1
    ∧ phongLightTerm (fun _ => 1) (fun _ => 1) (fun _ => 0) (fun _ => 1) (fun _ _ => 0)
        ⟨0,0,5⟩ 1 ⟨⟨0,0,0⟩, ⟨0,0,1⟩, 0, 1⟩ ⟨⟨1,1,1⟩, ⟨0,0,0⟩, ⟨0,0,0⟩, ⟨0,0,0⟩, 1, 0, 0⟩
        ⟨⟨0,0,1⟩, ⟨1,1,1⟩, ⟨1,0,0⟩, ⟨0,0,-1⟩, 0⟩ = ⟨0,0,0⟩
    ∧ phongLightTermRetained (fun _ => 1) (fun _ => 1) (fun _ => 0) (fun _ => 1) (fun _ _ => 0)
        ⟨0,0,5⟩ 1 ⟨⟨0,0,0⟩, ⟨0,0,1⟩, 0, 1⟩ ⟨⟨1,1,1⟩, ⟨0,0,0⟩, ⟨0,0,0⟩, ⟨0,0,0⟩, 1, 0, 0⟩
        ⟨⟨0,0,1⟩, ⟨1,1,1⟩, ⟨1,0,0⟩, ⟨0,0,-1⟩, 0⟩ = ⟨1,1,1⟩ := by
  decide

/-- Claim C6 amended: a cone-restricted light's contribution is zeroed when
the cosine of the angle between the facing direction and the reversed
light vector is less than or equal to the cosine of the half-angle — i.e.
when the angle equals or exceeds the half-angle — and is retained (equals
the unrestricted per-light term) exactly when the angle is strictly
within the cone. -/
theorem phongLightTerm_cone_gate (scene : Ray → ℚ) (sqrtF sinF cosF : ℚ → ℚ)
    (powF : ℚ → ℚ → ℚ) (eye : Vec3) (beaconR : ℚ) (it : Intersection)
    (m : Material) (light : Light) :
    (dot (-(normalize sqrtF (light.pos - it.p))) (normalize sqrtF light.towards)
        ≤ cosF light.angle →
      phongLightTerm scene sqrtF sinF cosF powF eye beaconR it m light = ⟨0,0,0⟩)
    ∧ (cosF light.angle
        < dot (-(normalize sqrtF (light.pos - it.p))) (normalize sqrtF light.towards) →
      phongLightTerm scene sqrtF sinF cosF powF eye beaconR it m light
        = phongLightTermRetained scene sqrtF sinF cosF powF eye beaconR it m light) := by
  constructor
  · intro h
    simp only [phongLightTerm]
    rw [if_pos h, Vec3.zero_smul_eq, vmul_zero_left, Vec3.smul_zero_eq]
  · intro h
    have hn := not_le.mpr h
    simp only [phongLightTerm, phongLightTermRetained]
    rw [if_neg hn, Vec3.one_smul_eq]

/-- Witness for the amended C6 at a concrete input inside the zeroed
region. -/
theorem phongLightTerm_cone_gate_witness :
    phongLightTerm (fun _ => 1) (fun _ => 1) (fun _ => 0) (fun _ => 1) (fun _ _ => 0)
        ⟨0,0,5⟩ 1 ⟨⟨0,0,0⟩, ⟨0,0,1⟩, 0, 1⟩ ⟨⟨1,1,1⟩, ⟨0,0,0⟩, ⟨0,0,0⟩, ⟨0,0,0⟩, 1, 0, 0⟩
        ⟨⟨0,0,1⟩, ⟨2,2,2⟩, ⟨1,0,0⟩, ⟨0,0,-1⟩, 0⟩ = ⟨0,0,0⟩ :=
  (phongLightTerm_cone_gate (fun _ => 1) (fun _ => 1) (fun _ => 0) (fun _ => 1) (fun _ _ => 0)
      ⟨0,0,5⟩ 1 ⟨⟨0,0,0⟩, ⟨0,0,1⟩, 0, 1⟩ ⟨⟨1,1,1⟩, ⟨0,0,0⟩, ⟨0,0,0⟩, ⟨0,0,0⟩, 1, 0, 0⟩
      ⟨⟨0,0,1⟩, ⟨2,2,2⟩, ⟨1,0,0⟩, ⟨0,0,-1⟩, 0⟩).1 (by decide)

/-- Claim C9: binding a scene light list with more than `N_LIGHTS = 10`
entries produces exactly the same shading as binding its first ten lights:
`updateUniforms` uploads only `numLights = min(10, length)` lights and
`getPhongColor`'s loop stops at `numLights`, so `getPhongColor` agrees on
the two uniform states for every pixel's intersection, material, scene
function and math-builtin model. -/
theorem getPhongColor_light_truncation (scene : Ray → ℚ) (sqrtF sinF cosF : ℚ → ℚ)
    (powF : ℚ → ℚ → ℚ) (sceneLights : List SceneLight) (prev : Uniforms)
    (it : Intersection) (m : Material) (hL : 10 < sceneLights.length) :
    getPhongColor scene sqrtF sinF cosF powF (updateLightUniforms sceneLights prev) it m
      = getPhongColor scene sqrtF sinF cosF powF
          (updateLightUniforms (sceneLights.take 10) prev) it m := by
  rw [updateLightUniforms_take sceneLights prev hL]

/-- Witness for C9 on a concrete eleven-light scene. -/
theorem getPhongColor_light_truncation_witness :
    getPhongColor (fun _ => 1) (fun _ => 1) (fun _ => 0) (fun _ => 1) (fun _ _ => 0)
      (updateLightUniforms
        [⟨⟨0,0,0⟩,⟨1,1,1⟩⟩, ⟨⟨1,0,0⟩,⟨1,1,1⟩⟩, ⟨⟨2,0,0⟩,⟨1,1,1⟩⟩, ⟨⟨3,0,0⟩,⟨1,1,1⟩⟩,
         ⟨⟨4,0,0⟩,⟨1,1,1⟩⟩, ⟨⟨5,0,0⟩,⟨1,1,1⟩⟩, ⟨⟨6,0,0⟩,⟨1,1,1⟩⟩, ⟨⟨7,0,0⟩,⟨1,1,1⟩⟩,
         ⟨⟨8,0,0⟩,⟨1,1,1⟩⟩, ⟨⟨9,0,0⟩,⟨1,1,1⟩⟩, ⟨⟨10,0,0⟩,⟨1,1,1⟩⟩]
        ⟨0, fun _ => ⟨⟨0,0,0⟩,⟨0,0,0⟩,⟨1,0,0⟩,⟨0,0,1⟩,0⟩, ⟨0,0,5⟩, 1⟩)
      ⟨⟨0,0,0⟩,⟨0,0,1⟩,0,1⟩ blankMaterial
    = getPhongColor (fun _ => 1) (fun _ => 1) (fun _ => 0) (fun _ => 1) (fun _ _ => 0)
      (updateLightUniforms
        (List.take 10
          [⟨⟨0,0,0⟩,⟨1,1,1⟩⟩, ⟨⟨1,0,0⟩,⟨1,1,1⟩⟩, ⟨⟨2,0,0⟩,⟨1,1,1⟩⟩, ⟨⟨3,0,0⟩,⟨1,1,1⟩⟩,
           ⟨⟨4,0,0⟩,⟨1,1,1⟩⟩, ⟨⟨5,0,0⟩,⟨1,1,1⟩⟩, ⟨⟨6,0,0⟩,⟨1,1,1⟩⟩, ⟨⟨7,0,0⟩,⟨1,1,1⟩⟩,
           ⟨⟨8,0,0⟩,⟨1,1,1⟩⟩, ⟨⟨9,0,0⟩,⟨1,1,1⟩⟩, ⟨⟨10,0,0⟩,⟨1,1,1⟩⟩])
        ⟨0, fun _ => ⟨⟨0,0,0⟩,⟨0,0,0⟩,⟨1,0,0⟩,⟨0,0,1⟩,0⟩, ⟨0,0,5⟩, 1⟩)
      ⟨⟨0,0,0⟩,⟨0,0,1⟩,0,1⟩ blankMaterial :=
  getPhongColor_light_truncation (fun _ => 1) (fun _ => 1) (fun _ => 0) (fun _ => 1)
    (fun _ _ => 0)
    [⟨⟨0,0,0⟩,⟨1,1,1⟩⟩, ⟨⟨1,0,0⟩,⟨1,1,1⟩⟩, ⟨⟨2,0,0⟩,⟨1,1,1⟩⟩, ⟨⟨3,0,0⟩,⟨1,1,1⟩⟩,
     ⟨⟨4,0,0⟩,⟨1,1,1⟩⟩, ⟨⟨5,0,0⟩,⟨1,1,1⟩⟩, ⟨⟨6,0,0⟩,⟨1,1,1⟩⟩, ⟨⟨7,0,0⟩,⟨1,1,1⟩⟩,
     ⟨⟨8,0,0⟩,⟨1,1,1⟩⟩, ⟨⟨9,0,0⟩,⟨1,1,1⟩⟩, ⟨⟨10,0,0⟩,⟨1,1,1⟩⟩]
    ⟨0, fun _ => ⟨⟨0,0,0⟩,⟨0,0,0⟩,⟨1,0,0⟩,⟨0,0,1⟩,0⟩, ⟨0,0,5⟩, 1⟩
    ⟨⟨0,0,0⟩,⟨0,0,1⟩,0,1⟩ blankMaterial (by decide)

/-- Claim C10: `getMaterial` scans the fixed-size array with indices
`0 <= i < MAX_MATERIALS` only (the loop variable is a `Fin 10`, so no
out-of-bounds access is possible by construction); for `0 <= mIdx < 10` it
returns `materials[mIdx]`, and for any other index it returns the
uninitialised local `Material m` (modelled as `blankMaterial`) after the
scan. -/
theorem getMaterial_contract (materials : Fin 10 → Material) (mIdx : ℤ) :
    (∀ (h1 : 0 ≤ mIdx) (h2 : mIdx < 10),
      getMaterial materials mIdx = materials ⟨mIdx.toNat, by omega⟩)
    ∧ ((mIdx < 0 ∨ 10 ≤ mIdx) → getMaterial materials mIdx = blankMaterial) := by
  constructor
  · intro h1 h2
    interval_cases mIdx <;> rfl
  · intro h
    unfold getMaterial
    apply getMaterial_skip
    intro i _
    have hi : ((i : ℕ) : ℤ) < 10 := by exact_mod_cast i.isLt
    have hi0 : (0 : ℤ) ≤ ((i : ℕ) : ℤ) := by positivity
    rcases h with h | h <;> omega

/-- Witness for C10 at an in-range index (`3`) and an out-of-range index
(`12`). -/
theorem getMaterial_contract_witness :
    getMaterial (fun _ => { blankMaterial with shininess := 9 }) 3
      = { blankMaterial with shininess := 9 }
    ∧ getMaterial (fun _ => { blankMaterial with shininess := 9 }) 12 = blankMaterial :=
  ⟨(getMaterial_contract (fun _ => { blankMaterial with shininess := 9 }) 3).1
      (by decide) (by decide),
   (getMaterial_contract (fun _ => { blankMaterial with shininess := 9 }) 12).2
      (Or.inr (by decide))⟩

end RT
